import Mathlib

/-!
Shallow embedding of the congestion-analysis core of the SmartCCTV backend
(`analytics/services.py`, `analytics/congestion_analysis_tasks.py`,
`analytics/tasks.py`, data model from `analytics/models.py`).

Conventions of the embedding:
* Python floats are modelled as rationals (`ℚ`); the claims under study are
  about order comparisons and exact arithmetic identities, not rounding.
* Django rows are records; a database is explicit lists of rows.  An ORM
  `get`/`filter(...).first()` becomes `List.find?`; a `save()` becomes a
  structural update mapped over the row list.
* `NULL`able columns (per `models.py`) are `Option`-valued; non-nullable
  columns (`bbox_x`, `bbox_y`, `bbox_width`, `bbox_height`) are plain `Int`.
* Timestamps are `Int` instants; only their order is ever used.
* Calls into the external Shapely/alphashape libraries are modelled by
  explicit computable geometry functions (marked below) or, for the alpha
  shape whose optimizer is randomized, by an explicit outcome parameter.
-/

namespace SmartCCTV

/-- `ProcessingStatus` text choices from `analytics/models.py`. -/
inductive ProcessingStatus where
  | PENDING
  | PROCESSING
  | COMPLETED
  | FAILED
deriving DecidableEq, Repr

/-- `CongestionLevelLabel` text choices from `analytics/models.py`. -/
inductive CongestionLevelLabel where
  | LOW
  | MEDIUM
  | HIGH
  | VERY_HIGH
deriving DecidableEq, Repr

/-- Severity rank of a congestion level, for stating monotonicity
(LOW < MEDIUM < HIGH < VERY_HIGH). -/
def CongestionLevelLabel.rank : CongestionLevelLabel → Nat
  | .LOW => 0
  | .MEDIUM => 1
  | .HIGH => 2
  | .VERY_HIGH => 3

/-- The constant CONGESTION_CALCULATION_R_RATIO = 0.05 from
`analytics/services.py`. -/
def CONGESTION_CALCULATION_R_RATIO : ℚ := 5 / 100

/-- The congestion threshold table `CONGESTION_THRESHOLDS` from
`analytics/services.py`: `{LOW: 0.1, MEDIUM: 0.3, HIGH: 0.6}`
(VERY_HIGH has no entry; it is the fall-through case). -/
structure CongestionThresholds where
  low : ℚ
  medium : ℚ
  high : ℚ
deriving DecidableEq, Repr

/-- The threshold values of `analytics/services.py` (`0.1`, `0.3`, `0.6`). -/
def CONGESTION_THRESHOLDS : CongestionThresholds :=
  { low := 1 / 10, medium := 3 / 10, high := 6 / 10 }

/-- `determine_congestion_level` from `analytics/services.py`. -/
def determine_congestion_level (congestion_value_raw : ℚ) : CongestionLevelLabel :=
  if congestion_value_raw < CONGESTION_THRESHOLDS.low then .LOW
  else if congestion_value_raw < CONGESTION_THRESHOLDS.medium then .MEDIUM
  else if congestion_value_raw < CONGESTION_THRESHOLDS.high then .HIGH
  else .VERY_HIGH

/-- A `Detected_Objects` row (`analytics/models.py`).  `bbox_*` columns are
non-nullable integers; `confidence`, `center_x`, `center_y` are nullable. -/
structure DetectedObject where
  snapshot_id : Int
  class_label : String
  confidence : Option ℚ
  bbox_x : Int
  bbox_y : Int
  bbox_width : Int
  bbox_height : Int
  center_x : Option Int
  center_y : Option Int
deriving DecidableEq, Repr

/-- `calculate_total_footprint_area` from `analytics/services.py`: the running
sum over the loop body
`if obj.class_label == 'person' and obj.bbox_width > 0 and obj.bbox_height > 0:
  total_area += bbox_width * max(1.0, bbox_height * r_ratio)`. -/
def calculate_total_footprint_area (detected_objects : List DetectedObject)
    (r_ratio : ℚ) : ℚ :=
  detected_objects.foldl
    (fun total_area obj =>
      if obj.class_label = "person" ∧ 0 < obj.bbox_width ∧ 0 < obj.bbox_height then
        total_area + (obj.bbox_width : ℚ) * max 1 ((obj.bbox_height : ℚ) * r_ratio)
      else
        total_area)
    0

/-- A `Snapshots` row (`analytics/models.py`), restricted to the columns the
congestion scorer reads or writes. -/
structure Snapshot where
  snapshot_id : Int
  camera_id : Int
  captured_at : Int
  processing_status_ai : ProcessingStatus
  processing_status_congestion : ProcessingStatus
deriving DecidableEq, Repr

/-- The JSON `definition_data` payload of a `ROI_Definitions` row.  Every key
is optional, mirroring the duck-typed dict the code reads with
`'key' in data` / `.get(...)` checks. -/
structure RoiData where
  type : Option String
  area : Option ℚ
  vertices : Option (List (ℚ × ℚ))
  coordinates : Option (List (ℚ × ℚ))
  roi_defining_points : Option (List (ℚ × ℚ))
  alpha_value : Option ℚ
  last_processed_timestamp : Option Int
  status : Option String
  note : Option String
deriving DecidableEq, Repr

/-- The all-absent payload (an empty JSON object). -/
def RoiData.empty : RoiData :=
  { type := none, area := none, vertices := none, coordinates := none,
    roi_defining_points := none, alpha_value := none,
    last_processed_timestamp := none, status := none, note := none }

/-- A `Congestion_Events` row (`analytics/models.py`), restricted to the
columns `calculate_and_save_congestion_event` writes. -/
structure CongestionEvent where
  camera_id : Int
  snapshot_id : Int
  event_timestamp : Int
  person_count : Nat
  estimated_roi_pixel_area : ℚ
  congestion_value_raw : ℚ
  congestion_level : CongestionLevelLabel
  alert_triggered : Bool
  is_acknowledged : Bool
deriving DecidableEq, Repr

/-- The slice of the database that `calculate_and_save_congestion_event`
touches.  `active_rois` maps a camera id to the `definition_data` of its
active ROI definition; it is the single-row result of the
`get_active_roi_for_camera` query (`is_active=True`, newest `updated_at`). -/
structure DBState where
  snapshots : List Snapshot
  detected_objects : List DetectedObject
  active_rois : List (Int × RoiData)
  congestion_events : List CongestionEvent
deriving DecidableEq, Repr

/-- `get_active_roi_for_camera` from `analytics/services.py`: the
`definition_data` of the camera's active ROI definition, or `none`. -/
def get_active_roi_for_camera (st : DBState) (camera_id : Int) : Option RoiData :=
  (st.active_rois.find? (fun r => r.1 = camera_id)).map (·.2)

/-- `snapshot.processing_status_congestion = s; snapshot.save()` : update the
congestion status of the row(s) with the given id. -/
def setCongestionStatus (st : DBState) (snapshot_id : Int)
    (s : ProcessingStatus) : DBState :=
  { st with
    snapshots := st.snapshots.map
      (fun snap =>
        if snap.snapshot_id = snapshot_id then
          { snap with processing_status_congestion := s }
        else snap) }

/-- `calculate_and_save_congestion_event` from `analytics/services.py`.
The whole Python function runs under `@transaction.atomic`; accordingly the
embedding is one pure state transformer returning the new database state and
the created event (or `None`). -/
def calculate_and_save_congestion_event (st : DBState) (snapshot_id : Int) :
    DBState × Option CongestionEvent :=
  match st.snapshots.find? (fun s => s.snapshot_id = snapshot_id) with
  | none => (st, none)
  | some snapshot =>
    if snapshot.processing_status_congestion = ProcessingStatus.COMPLETED then
      (st, none)
    else if snapshot.processing_status_ai ≠ ProcessingStatus.COMPLETED then
      (setCongestionStatus st snapshot_id ProcessingStatus.FAILED, none)
    else
      let detected_objects := st.detected_objects.filter
        (fun o => o.snapshot_id = snapshot_id ∧ o.class_label = "person")
      let person_count := detected_objects.length
      match get_active_roi_for_camera st snapshot.camera_id with
      | none => (setCongestionStatus st snapshot_id ProcessingStatus.FAILED, none)
      | some active_roi_data =>
        match active_roi_data.area with
        | none => (setCongestionStatus st snapshot_id ProcessingStatus.FAILED, none)
        | some a =>
          if a ≤ 0 then
            (setCongestionStatus st snapshot_id ProcessingStatus.FAILED, none)
          else
            let estimated_roi_pixel_area := a
            let total_footprint_area_sum :=
              calculate_total_footprint_area detected_objects CONGESTION_CALCULATION_R_RATIO
            let congestion_value_raw :=
              if 0 < estimated_roi_pixel_area then
                total_footprint_area_sum / estimated_roi_pixel_area
              else 0
            let congestion_level := determine_congestion_level congestion_value_raw
            let alert_triggered :=
              congestion_level = CongestionLevelLabel.HIGH ∨
                congestion_level = CongestionLevelLabel.VERY_HIGH
            let congestion_event : CongestionEvent :=
              { camera_id := snapshot.camera_id,
                snapshot_id := snapshot_id,
                event_timestamp := snapshot.captured_at,
                person_count := person_count,
                estimated_roi_pixel_area := estimated_roi_pixel_area,
                congestion_value_raw := congestion_value_raw,
                congestion_level := congestion_level,
                alert_triggered := alert_triggered,
                is_acknowledged := false }
            let st := { st with
              congestion_events := st.congestion_events ++ [congestion_event] }
            (setCongestionStatus st snapshot_id ProcessingStatus.COMPLETED,
              some congestion_event)

/-- A 2-D footprint/ROI point, the Python `Tuple[float, float]`. -/
abbrev Point : Type := ℚ × ℚ

/-- `MAX_ROI_POINTS = 1000` from `analytics/congestion_analysis_tasks.py`. -/
def MAX_ROI_POINTS : Nat := 1000

/-- `ALPHA_CACHE_SIZE = 100` from `analytics/congestion_analysis_tasks.py`. -/
def ALPHA_CACHE_SIZE : Nat := 100

/-- `MIN_POINTS_FOR_ROI = 3` from `analytics/congestion_analysis_tasks.py`. -/
def MIN_POINTS_FOR_ROI : Nat := 3

/-- The Python slice `lst[-n:]` for `n > 0`: the last `min n lst.length`
elements of `lst`. -/
def pyTakeLast (l : List α) (n : Nat) : List α :=
  l.drop (l.length - n)

/-- `efficient_point_management` from `analytics/congestion_analysis_tasks.py`:
`if not existing_points: return new_points[-MAX_ROI_POINTS:]`, otherwise keep
`existing + new` if within the cap, else the last `MAX_ROI_POINTS` entries. -/
def efficient_point_management (existing_points new_points : List Point) :
    List Point :=
  if existing_points.isEmpty then
    pyTakeLast new_points MAX_ROI_POINTS
  else
    let total_points := existing_points ++ new_points
    if total_points.length ≤ MAX_ROI_POINTS then total_points
    else pyTakeLast total_points MAX_ROI_POINTS

/-- The `AlphaCache` class state from `analytics/congestion_analysis_tasks.py`:
`_cache` is the Python dict (insertion-ordered association list with unique
keys), `_access_order` the `collections.deque` (front = left end). -/
structure AlphaCache where
  _cache : List (String × ℚ)
  _access_order : List String
  _max_size : Nat
deriving DecidableEq, Repr

/-- `AlphaCache(max_size)` freshly constructed. -/
def AlphaCache.mk0 (max_size : Nat := ALPHA_CACHE_SIZE) : AlphaCache :=
  { _cache := [], _access_order := [], _max_size := max_size }

/-- Python dict lookup `d[k]` / `k in d` combined: the stored value, if any. -/
def dictGet (d : List (String × ℚ)) (k : String) : Option ℚ :=
  (d.find? (fun e => e.1 = k)).map (·.2)

/-- Python dict assignment `d[k] = v`: update in place if the key exists
(keeping its position), else append at the end. -/
def dictSet (d : List (String × ℚ)) (k : String) (v : ℚ) : List (String × ℚ) :=
  if (d.find? (fun e => e.1 = k)).isSome then
    d.map (fun e => if e.1 = k then (k, v) else e)
  else
    d ++ [(k, v)]

/-- Python `del d[k]` for a key known to be present: drop the entry. -/
def dictDel (d : List (String × ℚ)) (k : String) : List (String × ℚ) :=
  d.filter (fun e => e.1 ≠ k)

/-- `AlphaCache.get_alpha`: on a hit, `deque.remove` the hash (its first
occurrence) and re-append it, returning the cached value; on a miss return
`None` and leave the state unchanged. -/
def AlphaCache.get_alpha (c : AlphaCache) (points_hash : String) :
    Option ℚ × AlphaCache :=
  match dictGet c._cache points_hash with
  | some v =>
      (some v,
        { c with _access_order := (c._access_order.erase points_hash) ++ [points_hash] })
  | none => (none, c)

/-- `AlphaCache.set_alpha`: when `len(self._cache) >= self._max_size`, pop the
left end of `_access_order` and `del` that key from `_cache`, then store the
new value and append the hash to `_access_order`.  `none` models an uncaught
Python exception: `popleft` on an empty deque (`IndexError`) or `del` of a key
that is no longer in the dict (`KeyError`), both reachable because
`_access_order` may hold duplicates. -/
def AlphaCache.set_alpha (c : AlphaCache) (points_hash : String) (alpha_value : ℚ) :
    Option AlphaCache :=
  if c._max_size ≤ c._cache.length then
    match c._access_order with
    | [] => none
    | oldest :: rest =>
        if (dictGet c._cache oldest).isSome then
          some { c with
            _cache := dictSet (dictDel c._cache oldest) points_hash alpha_value,
            _access_order := rest ++ [points_hash] }
        else none
  else
    some { c with
      _cache := dictSet c._cache points_hash alpha_value,
      _access_order := c._access_order ++ [points_hash] }

/-- One client call on the alpha cache. -/
inductive CacheOp where
  | get (points_hash : String)
  | set (points_hash : String) (alpha_value : ℚ)
deriving DecidableEq, Repr

/-- Run a sequence of cache calls; `none` as soon as a `set_alpha` raises. -/
def runCacheOps (c : AlphaCache) : List CacheOp → Option AlphaCache
  | [] => some c
  | CacheOp.get k :: ops => runCacheOps (c.get_alpha k).2 ops
  | CacheOp.set k v :: ops =>
      match c.set_alpha k v with
      | some c' => runCacheOps c' ops
      | none => none

/-- The structural invariant of a well-used cache: the access deque holds no
duplicates and lists exactly the cached keys.  It holds for the fresh cache and
is preserved as long as `set_alpha` is only called on fingerprints that are not
currently cached (each cached fingerprint entered the deque exactly once). -/
def AlphaCache.Inv (c : AlphaCache) : Prop :=
  c._access_order.Nodup ∧ ∀ k, (dictGet c._cache k).isSome ↔ k ∈ c._access_order

/-- The `i`-th distinct fingerprint used by the concrete cache scenarios. -/
def keyOf (i : Nat) : String := String.mk [Char.ofNat (33 + i)]

/-- A concrete call sequence on a default-sized (100-entry) cache: 100 sets of
distinct fingerprints filling the cache to capacity, then one more `set` of
the already-present fingerprint `keyOf 1`. -/
def c6ops : List CacheOp :=
  ((List.range 100).map (fun i => CacheOp.set (keyOf i) 0)) ++
    [CacheOp.set (keyOf 1) 5]

/-! ### Footprint extraction (`get_footprints_from_detected_objects`) -/

/-- The join `DetectedObjects.filter(snapshot__camera_id=.., snapshot__captured_at__gt=..,
class_label='person')` of `analytics/congestion_analysis_tasks.py`: each
qualifying detection paired with its snapshot's capture time.  The time bound
is strict (`__gt`). -/
def footprintQuery (st : DBState) (camera_id : Int) (start_time : Int) :
    List (DetectedObject × Int) :=
  st.detected_objects.filterMap
    (fun o =>
      match st.snapshots.find? (fun s => s.snapshot_id = o.snapshot_id) with
      | some s =>
          if s.camera_id = camera_id ∧ start_time < s.captured_at ∧
              o.class_label = "person" then
            some (o, s.captured_at)
          else none
      | none => none)

/-- `ORDER BY snapshot__captured_at` on the query result. -/
def orderByCapturedAt (rows : List (DetectedObject × Int)) :
    List (DetectedObject × Int) :=
  rows.insertionSort (fun a b => a.2 ≤ b.2)

/-- The conversion `(float(obj.center_x), float(obj.bbox_y + obj.bbox_height))`:
the bottom-centre of the bounding box. -/
def footprint_of (r : DetectedObject × Int) : Point :=
  (((r.1.center_x.getD 0 : Int) : ℚ), ((r.1.bbox_y + r.1.bbox_height : Int) : ℚ))

/-- `get_footprints_from_detected_objects` from
`analytics/congestion_analysis_tasks.py`.  The Python guard is
`all(x is not None for x in [obj.center_x, obj.bbox_y, obj.bbox_height])`;
since `bbox_y` and `bbox_height` are non-nullable columns the guard reduces to
`center_x is not None`, which is what the embedding tests. -/
def get_footprints_from_detected_objects (st : DBState) (camera_id : Int)
    (start_time : Int) : List Point :=
  (orderByCapturedAt (footprintQuery st camera_id start_time)).foldl
    (fun footprints r =>
      match r.1.center_x with
      | some _ => footprints ++ [footprint_of r]
      | none => footprints)
    []

/-- The Footprint Extractor as the spec states it (§4.4 / claim C9): one point
per person detection after the strict bound "with complete bounding-box and
center data", in capture order.  Complete centre data means both `center_x`
and `center_y` are present (`bbox` columns are never missing). -/
def spec_footprints (st : DBState) (camera_id : Int) (start_time : Int) :
    List Point :=
  ((orderByCapturedAt (footprintQuery st camera_id start_time)).filter
      (fun r => r.1.center_x.isSome ∧ r.1.center_y.isSome)).map footprint_of

/-- The Footprint Extractor as amended: completeness is required only of the
fields the conversion reads (`center_x`; the bounding-box columns are
non-nullable). -/
def spec_footprints_amended (st : DBState) (camera_id : Int) (start_time : Int) :
    List Point :=
  ((orderByCapturedAt (footprintQuery st camera_id start_time)).filter
      (fun r => r.1.center_x.isSome)).map footprint_of

/-! ### Geometry (models of the external Shapely library) -/

/-- Cross product `(a - o) × (b - o)`; positive iff `o→a→b` is a left turn. -/
def cross (o a b : Point) : ℚ :=
  (a.1 - o.1) * (b.2 - o.2) - (a.2 - o.2) * (b.1 - o.1)

/-- Close an open coordinate ring by repeating its first vertex, as Shapely's
`exterior.coords` does. -/
def closeRing (coords : List Point) : List Point :=
  coords ++ coords.take 1

/-- Twice the signed (shoelace) area of a closed ring. -/
def shoelace2 (ring : List Point) : ℚ :=
  (ring.zip ring.tail).foldl (fun s e => s + (e.1.1 * e.2.2 - e.2.1 * e.1.2)) 0

/-- Models the external Shapely `Polygon.area`: the absolute shoelace area of
the closed exterior ring. -/
def polygon_area (ring : List Point) : ℚ :=
  |shoelace2 ring| / 2

/-- Models the external Shapely `Polygon.contains(Point)` (strict interior
membership) by even-odd ray crossing over the open coordinate list. -/
def polygonContains (coords : List Point) (p : Point) : Bool :=
  (coords.zip (coords.rotate 1)).foldl
    (fun inside e =>
      let a := e.1
      let b := e.2
      if (p.2 < a.2) ↔ (p.2 < b.2) then inside
      else if p.1 < a.1 + (b.1 - a.1) * (p.2 - a.2) / (b.2 - a.2) then !inside
      else inside)
    false

/-- One step of the monotone-chain hull construction: pop non-left turns, then
push the new point (the accumulator keeps the chain in reverse). -/
def chainStep (p : Point) : List Point → List Point
  | b :: a :: rest =>
      if cross a b p ≤ 0 then chainStep p (a :: rest) else p :: b :: a :: rest
  | acc => p :: acc

/-- One half (lower or upper) of the monotone-chain hull. -/
def halfChain (pts : List Point) : List Point :=
  (pts.foldl (fun acc p => chainStep p acc) []).reverse

/-- Lexicographic (x then y) order used to sort hull input. -/
def lexLe (a b : Point) : Prop :=
  a.1 < b.1 ∨ (a.1 = b.1 ∧ a.2 ≤ b.2)

instance : DecidableRel lexLe := fun a b => by
  unfold lexLe; infer_instance

/-- Models the external Shapely `MultiPoint(...).convex_hull` by Andrew's
monotone chain: `some ring` is the closed counterclockwise exterior ring (last
vertex repeats the first, like `exterior.coords`); `none` models the degenerate
cases in which Shapely returns a `Point` or `LineString` (fewer than 3 distinct
or all-collinear input points), which the caller's `isinstance(..., Polygon)` /
emptiness checks reject. -/
def convex_hull (pts : List Point) : Option (List Point) :=
  let ps := pts.dedup.insertionSort lexLe
  match ps with
  | [] => none
  | [_] => none
  | [_, _] => none
  | _ =>
    let lower := halfChain ps
    let upper := halfChain ps.reverse
    let ring := lower.dropLast ++ upper.dropLast
    if ring.length < 3 then none
    else some (closeRing ring)

/-- Models the external Shapely `equals_exact(other, tolerance)` on exterior
rings: same vertex count and coordinatewise agreement within the tolerance. -/
def equalsExact (c1 c2 : List Point) (tol : ℚ) : Bool :=
  decide (c1.length = c2.length) &&
    (c1.zip c2).all
      (fun e => decide (|e.1.1 - e.2.1| ≤ tol) && decide (|e.1.2 - e.2.2| ≤ tol))

/-- A `ROI_Definitions` row restricted to the columns the ROI services read
and write. -/
structure RoiDef where
  definition_type : String
  definition_data : RoiData
  is_active : Bool
  version : Int
deriving DecidableEq, Repr

namespace tasks

/-- `update_roi_for_camera_service` from `analytics/tasks.py` (the convex-hull
revision).  The state in scope is the camera's active `ROIDefinitions` row
(`filter(camera=camera, is_active=True).first()`); the camera lookup and the
Shapely availability check are earlier early-returns that write nothing.
Returns the new state of that row and the function's boolean result. -/
def update_roi_for_camera_service (current_roi_def : Option RoiDef)
    (new_footprints : List Point) : Option RoiDef × Bool :=
  -- existing polygon: needs the 'coordinates' key with at least 3 vertices
  let parsed : Option (List Point) :=
    match current_roi_def with
    | some d =>
        match d.definition_data.coordinates with
        | some coords => if 3 ≤ coords.length then some coords else none
        | none => none
    | none => none
  let existing_roi_points_for_hull := parsed.getD []
  -- footprints appended to points_for_new_hull: those with no existing
  -- polygon or not strictly inside it
  let outside :=
    match parsed with
    | some coords => new_footprints.filter (fun p => ¬ polygonContains coords p)
    | none => new_footprints
  let points_for_new_hull := existing_roi_points_for_hull ++ outside
  let added_new_points := ¬ outside.isEmpty
  if ¬ added_new_points ∧ parsed.isSome then
    (current_roi_def, false)
  else if points_for_new_hull.length < 3 then
    (current_roi_def, false)
  else
    let unique_points_for_hull := points_for_new_hull.dedup
    if unique_points_for_hull.length < 3 then
      (current_roi_def, false)
    else
      match convex_hull unique_points_for_hull with
      | none => (current_roi_def, false)
      | some ring =>
          let new_roi_coordinates_dict_list := ring.dropLast
          if new_roi_coordinates_dict_list.length < 3 then
            (current_roi_def, false)
          else
            let new_roi_area := polygon_area ring
            let identical :=
              match parsed with
              | some coords => equalsExact (closeRing coords) ring (1 / 100000)
              | none => false
            if identical then
              (current_roi_def, false)
            else
              let roi_definition_data :=
                { RoiData.empty with
                  type := some "DYNAMIC_CONVEX_HULL",
                  coordinates := some new_roi_coordinates_dict_list,
                  area := some new_roi_area }
              match current_roi_def with
              | some d => (some { d with definition_data := roi_definition_data }, true)
              | none =>
                  (some { definition_type := "DYNAMIC_CONVEX_HULL",
                          definition_data := roi_definition_data,
                          is_active := true, version := 1 }, true)

end tasks

namespace congestion_analysis_tasks

/-- The outcome of `calculate_alpha_shape_with_cache`, i.e. of the external
`alphashape.alphashape` call (whose parameter search is randomized and cached):
`valid coords area` when the returned geometry is a non-empty (Multi)Polygon —
`coords` is the closed exterior ring of the polygon (of the largest component
for a MultiPolygon) and `area` the geometry's area — and `invalid` when the
call raised or returned a non-polygon or empty geometry. -/
inductive ShapeOutcome where
  | invalid
  | valid (exterior_coords : List Point) (area : ℚ)
deriving DecidableEq, Repr

/-- `save_points_only` from `analytics/congestion_analysis_tasks.py`: persist
the accumulated points and the processing timestamp, keeping any other keys of
an existing definition; create a fresh points-only definition otherwise. -/
def save_points_only (current_roi_def : Option RoiDef)
    (unique_points : List Point) (current_task_start_time : Int) : Option RoiDef :=
  match current_roi_def with
  | some d =>
      some { d with definition_data :=
        { d.definition_data with
          roi_defining_points := some unique_points,
          last_processed_timestamp := some current_task_start_time } }
  | none =>
      some { definition_type := "DYNAMIC_ALPHA_SHAPE_SLIDING",
             definition_data :=
               { RoiData.empty with
                 type := some "DYNAMIC_ALPHA_SHAPE_SLIDING",
                 roi_defining_points := some unique_points,
                 status := some "points_only",
                 last_processed_timestamp := some current_task_start_time,
                 note := some "ROI calculation pending - accumulating points" },
             is_active := true, version := 1 }

/-- `update_roi_for_camera_service` from
`analytics/congestion_analysis_tasks.py` (the alpha-shape sliding-window
revision).  As above, the state in scope is the camera's active ROI row; the
camera lookup and library check are early returns that write nothing, and the
alpha-shape computation is passed in as its outcome (`shape`, with the alpha
parameter `alpha_value` it resolved).  The visualization side effect writes no
database state. -/
def update_roi_for_camera_service (current_roi_def : Option RoiDef)
    (new_footprints : List Point) (current_task_start_time : Int)
    (shape : ShapeOutcome) (alpha_value : ℚ) : Option RoiDef × Bool :=
  let existing_points : List Point :=
    match current_roi_def with
    | some d => (d.definition_data.roi_defining_points).getD []
    | none => []
  let updated_points := efficient_point_management existing_points new_footprints
  let unique_points := updated_points.dedup
  if unique_points.length < MIN_POINTS_FOR_ROI then
    (save_points_only current_roi_def unique_points current_task_start_time, false)
  else
    match shape with
    | ShapeOutcome.valid exterior_coords new_roi_area =>
        let new_vertex_points := exterior_coords
        let roi_definition_data :=
          { RoiData.empty with
            type := some "DYNAMIC_ALPHA_SHAPE_SLIDING",
            area := some new_roi_area,
            vertices := some new_vertex_points.dropLast,
            roi_defining_points := some unique_points,
            alpha_value := some alpha_value,
            last_processed_timestamp := some current_task_start_time }
        (match current_roi_def with
         | some d => some { d with definition_data := roi_definition_data }
         | none =>
             some { definition_type := "DYNAMIC_ALPHA_SHAPE_SLIDING",
                    definition_data := roi_definition_data,
                    is_active := true, version := 1 },
         true)
    | ShapeOutcome.invalid =>
        (save_points_only current_roi_def unique_points current_task_start_time, false)

end congestion_analysis_tasks

/-- The `roi_defining_points` persisted in a (possibly absent) ROI row. -/
def persistedPoints (rd : Option RoiDef) : Option (List Point) :=
  rd.bind (fun d => d.definition_data.roi_defining_points)

/-- The `last_processed_timestamp` persisted in a (possibly absent) ROI row. -/
def persistedTimestamp (rd : Option RoiDef) : Option Int :=
  rd.bind (fun d => d.definition_data.last_processed_timestamp)

/-- The event row built on the scorer's success path (abbreviation used by the
theorems below; `persons` is the `class_label='person'` queryset of the
snapshot). -/
def scorerEvent (st : DBState) (sid : Int) (snapshot : Snapshot) (a : ℚ) :
    CongestionEvent :=
  let persons := st.detected_objects.filter
    (fun o => o.snapshot_id = sid ∧ o.class_label = "person")
  let raw := calculate_total_footprint_area persons CONGESTION_CALCULATION_R_RATIO / a
  { camera_id := snapshot.camera_id,
    snapshot_id := sid,
    event_timestamp := snapshot.captured_at,
    person_count := persons.length,
    estimated_roi_pixel_area := a,
    congestion_value_raw := raw,
    congestion_level := determine_congestion_level raw,
    alert_triggered :=
      determine_congestion_level raw = CongestionLevelLabel.HIGH ∨
        determine_congestion_level raw = CongestionLevelLabel.VERY_HIGH,
    is_acknowledged := false }

/-- The footprint-area sum as the spec states it (claim C8): the sum over the
person-labelled detections with positive box dimensions of
`bbox_width * max(1, bbox_height * R)`. -/
def spec_total_footprint_area (detected_objects : List DetectedObject)
    (r_ratio : ℚ) : ℚ :=
  ((detected_objects.filter
      (fun o => o.class_label = "person" ∧ 0 < o.bbox_width ∧ 0 < o.bbox_height)).map
    (fun o => (o.bbox_width : ℚ) * max 1 ((o.bbox_height : ℚ) * r_ratio))).sum

/-! ## Theorems -/

/-- C1, claim as frozen, is false: the MEDIUM→HIGH threshold in
`CONGESTION_THRESHOLDS` is `0.3`, not the spec's `0.35`.  At the concrete
input `0.3` the claim predicts MEDIUM (since `0.1 ≤ 0.3 < 0.35`), but
`determine_congestion_level 0.3 = HIGH` (the code's own test suite also
expects `0.35 → HIGH`). -/
theorem C1_counterexample :
    determine_congestion_level (3 / 10) = CongestionLevelLabel.HIGH ∧
      (1 / 10 : ℚ) ≤ 3 / 10 ∧ (3 / 10 : ℚ) < 35 / 100 := by
  refine ⟨?_, by norm_num, by norm_num⟩
  norm_num [determine_congestion_level, CONGESTION_THRESHOLDS]

theorem thresholds_low : CONGESTION_THRESHOLDS.low = 1 / 10 := rfl

theorem thresholds_medium : CONGESTION_THRESHOLDS.medium = 3 / 10 := rfl

theorem thresholds_high : CONGESTION_THRESHOLDS.high = 6 / 10 := rfl

theorem determine_level_eq_LOW_iff (v : ℚ) :
    determine_congestion_level v = CongestionLevelLabel.LOW ↔ v < 1 / 10 := by
  unfold determine_congestion_level
  rw [thresholds_low, thresholds_medium, thresholds_high]
  split_ifs with a1 a2 a3
  · exact iff_of_true rfl a1
  · exact iff_of_false (by simp) a1
  · exact iff_of_false (by simp) a1
  · exact iff_of_false (by simp) a1

theorem determine_level_eq_MEDIUM_iff (v : ℚ) :
    determine_congestion_level v = CongestionLevelLabel.MEDIUM ↔
      1 / 10 ≤ v ∧ v < 3 / 10 := by
  unfold determine_congestion_level
  rw [thresholds_low, thresholds_medium, thresholds_high]
  split_ifs with a1 a2 a3
  · exact iff_of_false (by simp) (by rintro ⟨h, _⟩; linarith)
  · exact iff_of_true rfl ⟨le_of_not_lt a1, a2⟩
  · exact iff_of_false (by simp) (by rintro ⟨_, h⟩; exact a2 h)
  · exact iff_of_false (by simp) (by rintro ⟨_, h⟩; exact a2 h)

theorem determine_level_eq_HIGH_iff (v : ℚ) :
    determine_congestion_level v = CongestionLevelLabel.HIGH ↔
      3 / 10 ≤ v ∧ v < 6 / 10 := by
  unfold determine_congestion_level
  rw [thresholds_low, thresholds_medium, thresholds_high]
  split_ifs with a1 a2 a3
  · exact iff_of_false (by simp) (by rintro ⟨h, _⟩; linarith)
  · exact iff_of_false (by simp) (by rintro ⟨h, _⟩; linarith)
  · exact iff_of_true rfl ⟨le_of_not_lt a2, a3⟩
  · exact iff_of_false (by simp) (by rintro ⟨_, h⟩; exact a3 h)

theorem determine_level_eq_VERY_HIGH_iff (v : ℚ) :
    determine_congestion_level v = CongestionLevelLabel.VERY_HIGH ↔ 6 / 10 ≤ v := by
  unfold determine_congestion_level
  rw [thresholds_low, thresholds_medium, thresholds_high]
  split_ifs with a1 a2 a3
  · exact iff_of_false (by simp) (by intro h; linarith)
  · exact iff_of_false (by simp) (by intro h; linarith)
  · exact iff_of_false (by simp) (by intro h; linarith)
  · exact iff_of_true rfl (le_of_not_lt a3)

theorem determine_level_rank_mono {v w : ℚ} (hvw : v ≤ w) :
    (determine_congestion_level v).rank ≤ (determine_congestion_level w).rank := by
  unfold determine_congestion_level
  rw [thresholds_low, thresholds_medium, thresholds_high]
  split_ifs with a1 a2 a3 b1 b2 b3 <;>
    simp [CongestionLevelLabel.rank] <;> linarith

/-- C1 (amended): `determine_congestion_level` classifies with thresholds
`<0.1` LOW, `<0.3` MEDIUM, `<0.6` HIGH, else VERY_HIGH; it is monotonically
non-decreasing in its input, and `0.05 → LOW`, `0.15 → MEDIUM`, `0.5 → HIGH`,
`0.9 → VERY_HIGH`. -/
theorem C1_determine_congestion_level_characterization (v w : ℚ) (hvw : v ≤ w) :
    (determine_congestion_level v = CongestionLevelLabel.LOW ↔ v < 1 / 10) ∧
    (determine_congestion_level v = CongestionLevelLabel.MEDIUM ↔
      1 / 10 ≤ v ∧ v < 3 / 10) ∧
    (determine_congestion_level v = CongestionLevelLabel.HIGH ↔
      3 / 10 ≤ v ∧ v < 6 / 10) ∧
    (determine_congestion_level v = CongestionLevelLabel.VERY_HIGH ↔ 6 / 10 ≤ v) ∧
    (determine_congestion_level v).rank ≤ (determine_congestion_level w).rank ∧
    determine_congestion_level (5 / 100) = CongestionLevelLabel.LOW ∧
    determine_congestion_level (15 / 100) = CongestionLevelLabel.MEDIUM ∧
    determine_congestion_level (5 / 10) = CongestionLevelLabel.HIGH ∧
    determine_congestion_level (9 / 10) = CongestionLevelLabel.VERY_HIGH := by
  refine ⟨determine_level_eq_LOW_iff v, determine_level_eq_MEDIUM_iff v,
    determine_level_eq_HIGH_iff v, determine_level_eq_VERY_HIGH_iff v,
    determine_level_rank_mono hvw, ?_, ?_, ?_, ?_⟩
  · exact (determine_level_eq_LOW_iff _).mpr (by norm_num)
  · exact (determine_level_eq_MEDIUM_iff _).mpr (by norm_num)
  · exact (determine_level_eq_HIGH_iff _).mpr (by norm_num)
  · exact (determine_level_eq_VERY_HIGH_iff _).mpr (by norm_num)

/-- Witness for C1's amended theorem at `v = 0 ≤ w = 1`. -/
theorem C1_witness :
    (0 : ℚ) ≤ 1 ∧
      (determine_congestion_level 0).rank ≤ (determine_congestion_level 1).rank :=
  ⟨by norm_num,
    (C1_determine_congestion_level_characterization 0 1 (by norm_num)).2.2.2.2.1⟩

theorem pyTakeLast_length_le (l : List α) (n : Nat) :
    (pyTakeLast l n).length ≤ n := by
  unfold pyTakeLast
  rw [List.length_drop]
  omega

theorem efficient_point_management_length_le (e n : List Point) :
    (efficient_point_management e n).length ≤ MAX_ROI_POINTS := by
  simp only [efficient_point_management]
  split_ifs with h1 h2
  · exact pyTakeLast_length_le _ _
  · simpa using h2
  · exact pyTakeLast_length_le _ _

theorem foldl_epm_length_le (bs : List (List Point)) (init : List Point)
    (h : init.length ≤ MAX_ROI_POINTS) :
    (bs.foldl efficient_point_management init).length ≤ MAX_ROI_POINTS := by
  induction bs generalizing init with
  | nil => simpa using h
  | cons b bs ih => exact ih _ (efficient_point_management_length_le _ _)

/-- C2 (confirmed): the Point Window Manager's cap is 1000; its output never
exceeds the cap; when `existing ++ new` exceeds the cap the output is exactly
the last 1000 elements of that concatenation ;and the cap holds after any
further sequence of update calls. -/
theorem C2_point_window_cap :
    MAX_ROI_POINTS = 1000 ∧
    ∀ existing new : List Point,
      (efficient_point_management existing new).length ≤ MAX_ROI_POINTS ∧
      (MAX_ROI_POINTS < (existing ++ new).length →
        efficient_point_management existing new =
          pyTakeLast (existing ++ new) MAX_ROI_POINTS) ∧
      ∀ batches : List (List Point),
        (batches.foldl efficient_point_management
            (efficient_point_management existing new)).length ≤ MAX_ROI_POINTS := by
  refine ⟨rfl, fun existing new => ⟨efficient_point_management_length_le _ _, ?_, ?_⟩⟩
  · intro hlen
    simp only [efficient_point_management]
    split_ifs with h1 h2
    · rw [List.isEmpty_iff] at h1
      subst h1
      simp
    · omega
    · rfl
  · intro batches
    exact foldl_epm_length_le _ _ (efficient_point_management_length_le _ _)

/-- Witness for C2 at a concrete over-cap input (600 + 600 points). -/
theorem C2_witness :
    efficient_point_management (List.replicate 600 ((0 : ℚ), (0 : ℚ)))
        (List.replicate 600 ((1 : ℚ), (1 : ℚ))) =
      pyTakeLast
        (List.replicate 600 ((0 : ℚ), (0 : ℚ)) ++
          List.replicate 600 ((1 : ℚ), (1 : ℚ)))
        MAX_ROI_POINTS :=
  ((C2_point_window_cap.2 _ _).2.1)
    (by rw [List.length_append, List.length_replicate, List.length_replicate]
        norm_num [MAX_ROI_POINTS])

/-! ### Path lemmas for `calculate_and_save_congestion_event` -/

theorem setCongestionStatus_congestion_events (st : DBState) (sid : Int)
    (status : ProcessingStatus) :
    (setCongestionStatus st sid status).congestion_events = st.congestion_events :=
  rfl

theorem find?_map_update (l : List Snapshot) (sid : Int)
    (status : ProcessingStatus) :
    (l.map (fun snap =>
        if snap.snapshot_id = sid then
          { snap with processing_status_congestion := status }
        else snap)).find? (fun x => x.snapshot_id = sid) =
      (l.find? (fun x => x.snapshot_id = sid)).map
        (fun s => { s with processing_status_congestion := status }) := by
  induction l with
  | nil => rfl
  | cons a l ih =>
      by_cases h : a.snapshot_id = sid
      · simp [List.find?, h]
      · simp [List.find?, h, ih]

theorem setCongestionStatus_find? (st : DBState) (sid : Int)
    (status : ProcessingStatus) :
    (setCongestionStatus st sid status).snapshots.find?
        (fun x => x.snapshot_id = sid) =
      (st.snapshots.find? (fun x => x.snapshot_id = sid)).map
        (fun s => { s with processing_status_congestion := status }) :=
  find?_map_update st.snapshots sid status

theorem calc_of_find_none (st : DBState) (sid : Int)
    (hf : st.snapshots.find? (fun s => s.snapshot_id = sid) = none) :
    calculate_and_save_congestion_event st sid = (st, none) := by
  unfold calculate_and_save_congestion_event
  rw [hf]

theorem calc_of_completed (st : DBState) (sid : Int) (s : Snapshot)
    (hf : st.snapshots.find? (fun x => x.snapshot_id = sid) = some s)
    (hc : s.processing_status_congestion = ProcessingStatus.COMPLETED) :
    calculate_and_save_congestion_event st sid = (st, none) := by
  unfold calculate_and_save_congestion_event
  rw [hf]
  simp [hc]

theorem calc_of_ai_incomplete (st : DBState) (sid : Int) (s : Snapshot)
    (hf : st.snapshots.find? (fun x => x.snapshot_id = sid) = some s)
    (hc : s.processing_status_congestion ≠ ProcessingStatus.COMPLETED)
    (ha : s.processing_status_ai ≠ ProcessingStatus.COMPLETED) :
    calculate_and_save_congestion_event st sid =
      (setCongestionStatus st sid ProcessingStatus.FAILED, none) := by
  unfold calculate_and_save_congestion_event
  rw [hf]
  simp [hc, ha]

theorem calc_of_roi_none (st : DBState) (sid : Int) (s : Snapshot)
    (hf : st.snapshots.find? (fun x => x.snapshot_id = sid) = some s)
    (hc : s.processing_status_congestion ≠ ProcessingStatus.COMPLETED)
    (ha : s.processing_status_ai = ProcessingStatus.COMPLETED)
    (hroi : get_active_roi_for_camera st s.camera_id = none) :
    calculate_and_save_congestion_event st sid =
      (setCongestionStatus st sid ProcessingStatus.FAILED, none) := by
  unfold calculate_and_save_congestion_event
  rw [hf]
  simp [hc, ha, hroi]

theorem calc_of_area_none (st : DBState) (sid : Int) (s : Snapshot) (d : RoiData)
    (hf : st.snapshots.find? (fun x => x.snapshot_id = sid) = some s)
    (hc : s.processing_status_congestion ≠ ProcessingStatus.COMPLETED)
    (ha : s.processing_status_ai = ProcessingStatus.COMPLETED)
    (hroi : get_active_roi_for_camera st s.camera_id = some d)
    (harea : d.area = none) :
    calculate_and_save_congestion_event st sid =
      (setCongestionStatus st sid ProcessingStatus.FAILED, none) := by
  unfold calculate_and_save_congestion_event
  rw [hf]
  simp [hc, ha, hroi, harea]

theorem calc_of_area_nonpos (st : DBState) (sid : Int) (s : Snapshot)
    (d : RoiData) (a : ℚ)
    (hf : st.snapshots.find? (fun x => x.snapshot_id = sid) = some s)
    (hc : s.processing_status_congestion ≠ ProcessingStatus.COMPLETED)
    (ha : s.processing_status_ai = ProcessingStatus.COMPLETED)
    (hroi : get_active_roi_for_camera st s.camera_id = some d)
    (harea : d.area = some a) (hpos : a ≤ 0) :
    calculate_and_save_congestion_event st sid =
      (setCongestionStatus st sid ProcessingStatus.FAILED, none) := by
  unfold calculate_and_save_congestion_event
  rw [hf]
  simp [hc, ha, hroi, harea, hpos]

theorem calc_success (st : DBState) (sid : Int) (s : Snapshot) (d : RoiData)
    (a : ℚ)
    (hf : st.snapshots.find? (fun x => x.snapshot_id = sid) = some s)
    (hc : s.processing_status_congestion ≠ ProcessingStatus.COMPLETED)
    (ha : s.processing_status_ai = ProcessingStatus.COMPLETED)
    (hroi : get_active_roi_for_camera st s.camera_id = some d)
    (harea : d.area = some a) (hpos : 0 < a) :
    calculate_and_save_congestion_event st sid =
      (setCongestionStatus
          { st with congestion_events :=
              st.congestion_events ++ [scorerEvent st sid s a] }
          sid ProcessingStatus.COMPLETED,
        some (scorerEvent st sid s a)) := by
  unfold calculate_and_save_congestion_event
  rw [hf]
  simp [hc, ha, hroi, harea, not_le.mpr hpos, hpos, scorerEvent, setCongestionStatus]

/-- Inversion of the scorer's success path: if a call returned an event, the
call went through the unique event-creating branch. -/
theorem calc_some_inversion (st : DBState) (sid : Int) (st' : DBState)
    (ev : CongestionEvent)
    (h : calculate_and_save_congestion_event st sid = (st', some ev)) :
    ∃ s d a, st.snapshots.find? (fun x => x.snapshot_id = sid) = some s ∧
      s.processing_status_congestion ≠ ProcessingStatus.COMPLETED ∧
      s.processing_status_ai = ProcessingStatus.COMPLETED ∧
      get_active_roi_for_camera st s.camera_id = some d ∧
      d.area = some a ∧ 0 < a ∧
      ev = scorerEvent st sid s a ∧
      st' = setCongestionStatus
        { st with congestion_events := st.congestion_events ++ [ev] }
        sid ProcessingStatus.COMPLETED := by
  cases hf : st.snapshots.find? (fun x => x.snapshot_id = sid) with
  | none => rw [calc_of_find_none st sid hf] at h; simp at h
  | some s =>
    by_cases hc : s.processing_status_congestion = ProcessingStatus.COMPLETED
    · rw [calc_of_completed st sid s hf hc] at h; simp at h
    · by_cases ha : s.processing_status_ai = ProcessingStatus.COMPLETED
      · cases hroi : get_active_roi_for_camera st s.camera_id with
        | none => rw [calc_of_roi_none st sid s hf hc ha hroi] at h; simp at h
        | some d =>
          cases harea : d.area with
          | none =>
              rw [calc_of_area_none st sid s d hf hc ha hroi harea] at h
              simp at h
          | some a =>
              by_cases hpos : a ≤ 0
              · rw [calc_of_area_nonpos st sid s d a hf hc ha hroi harea hpos] at h
                simp at h
              · rw [calc_success st sid s d a hf hc ha hroi harea
                  (lt_of_not_le hpos)] at h
                have h1 := congrArg Prod.fst h
                have h2 := congrArg Prod.snd h
                simp only [] at h1 h2
                obtain rfl : scorerEvent st sid s a = ev := by
                  simpa using h2
                exact ⟨s, d, a, rfl, hc, ha, hroi, harea, lt_of_not_le hpos, rfl,
                  h1.symm⟩
      · rw [calc_of_ai_incomplete st sid s hf hc ha] at h; simp at h

/-- C3 (confirmed): scoring an already-COMPLETED snapshot is a no-op returning
`None` with the state (in particular both status fields and the event table)
untouched; consequently a second scoring of a successfully scored snapshot
creates no second `CongestionEvent`. -/
theorem C3_scorer_idempotent :
    (∀ (st : DBState) (sid : Int) (s : Snapshot),
        st.snapshots.find? (fun x => x.snapshot_id = sid) = some s →
        s.processing_status_congestion = ProcessingStatus.COMPLETED →
        calculate_and_save_congestion_event st sid = (st, none)) ∧
    (∀ (st st' : DBState) (sid : Int) (ev : CongestionEvent),
        calculate_and_save_congestion_event st sid = (st', some ev) →
        calculate_and_save_congestion_event st' sid = (st', none)) := by
  constructor
  · exact fun st sid s hf hc => calc_of_completed st sid s hf hc
  · intro st st' sid ev h
    obtain ⟨s, d, a, hf, hc, ha, hroi, harea, hpos, hev, hst'⟩ :=
      calc_some_inversion st sid st' ev h
    have hf' : st'.snapshots.find? (fun x => x.snapshot_id = sid) =
        some { s with processing_status_congestion := ProcessingStatus.COMPLETED } := by
      subst hst'
      rw [setCongestionStatus_find?]
      have : ({ st with congestion_events := st.congestion_events ++ [ev] } :
          DBState).snapshots.find? (fun x => x.snapshot_id = sid) = some s := hf
      rw [this]
      rfl
    exact calc_of_completed st' sid _ hf' rfl

/-- Witness for C3 at a concrete snapshot whose congestion stage is COMPLETED. -/
theorem C3_witness :
    calculate_and_save_congestion_event
        ⟨[⟨1, 1, 0, ProcessingStatus.COMPLETED, ProcessingStatus.COMPLETED⟩],
          [], [], []⟩ 1 =
      (⟨[⟨1, 1, 0, ProcessingStatus.COMPLETED, ProcessingStatus.COMPLETED⟩],
          [], [], []⟩, none) :=
  C3_scorer_idempotent.1 _ 1
    ⟨1, 1, 0, ProcessingStatus.COMPLETED, ProcessingStatus.COMPLETED⟩
    (by decide) rfl

/-- C4, claim as frozen, is false: a snapshot whose AI status is PENDING but
whose congestion status is already COMPLETED hits the already-processed check
first, so the call returns `None` leaving the congestion status COMPLETED —
it is not set to FAILED as the claim requires for every snapshot with
incomplete AI status. -/
theorem C4_counterexample :
    calculate_and_save_congestion_event
        ⟨[⟨1, 1, 0, ProcessingStatus.PENDING, ProcessingStatus.COMPLETED⟩],
          [], [], []⟩ 1 =
      (⟨[⟨1, 1, 0, ProcessingStatus.PENDING, ProcessingStatus.COMPLETED⟩],
          [], [], []⟩, none) ∧
    ProcessingStatus.COMPLETED ≠ ProcessingStatus.FAILED := by
  exact ⟨by decide, by decide⟩

/-- C4 (amended): for every snapshot whose congestion status is not already
COMPLETED and whose AI status is not COMPLETED (PENDING, PROCESSING or
FAILED), the scorer immediately sets the congestion status to FAILED, creates
no `CongestionEvent`, and returns `None`. -/
theorem C4_ai_incomplete_fails (st : DBState) (sid : Int) (s : Snapshot)
    (hf : st.snapshots.find? (fun x => x.snapshot_id = sid) = some s)
    (hc : s.processing_status_congestion ≠ ProcessingStatus.COMPLETED)
    (ha : s.processing_status_ai ≠ ProcessingStatus.COMPLETED) :
    calculate_and_save_congestion_event st sid =
      (setCongestionStatus st sid ProcessingStatus.FAILED, none) ∧
    (setCongestionStatus st sid ProcessingStatus.FAILED).congestion_events =
      st.congestion_events ∧
    ((setCongestionStatus st sid ProcessingStatus.FAILED).snapshots.find?
        (fun x => x.snapshot_id = sid)).map
      (fun x => x.processing_status_congestion) = some ProcessingStatus.FAILED := by
  refine ⟨calc_of_ai_incomplete st sid s hf hc ha, rfl, ?_⟩
  rw [setCongestionStatus_find?, hf]
  rfl

/-- Witness for C4's amended theorem at a concrete (PENDING, PENDING) snapshot. -/
theorem C4_witness :
    calculate_and_save_congestion_event
        ⟨[⟨1, 1, 0, ProcessingStatus.PENDING, ProcessingStatus.PENDING⟩],
          [], [], []⟩ 1 =
      (setCongestionStatus
          ⟨[⟨1, 1, 0, ProcessingStatus.PENDING, ProcessingStatus.PENDING⟩],
            [], [], []⟩ 1 ProcessingStatus.FAILED, none) :=
  (C4_ai_incomplete_fails _ 1
    ⟨1, 1, 0, ProcessingStatus.PENDING, ProcessingStatus.PENDING⟩
    (by decide) (by decide) (by decide)).1

/-- On every path of the scorer that returns `None`, the event table is left
unchanged. -/
theorem calc_none_events (st : DBState) (sid : Int)
    (h : (calculate_and_save_congestion_event st sid).2 = none) :
    (calculate_and_save_congestion_event st sid).1.congestion_events =
      st.congestion_events := by
  cases hf : st.snapshots.find? (fun x => x.snapshot_id = sid) with
  | none => rw [calc_of_find_none st sid hf]
  | some s =>
    by_cases hc : s.processing_status_congestion = ProcessingStatus.COMPLETED
    · rw [calc_of_completed st sid s hf hc]
    · by_cases ha : s.processing_status_ai = ProcessingStatus.COMPLETED
      · cases hroi : get_active_roi_for_camera st s.camera_id with
        | none => rw [calc_of_roi_none st sid s hf hc ha hroi]; rfl
        | some d =>
          cases harea : d.area with
          | none => rw [calc_of_area_none st sid s d hf hc ha hroi harea]; rfl
          | some a =>
              by_cases hpos : a ≤ 0
              · rw [calc_of_area_nonpos st sid s d a hf hc ha hroi harea hpos]
                rfl
              · exfalso
                rw [calc_success st sid s d a hf hc ha hroi harea
                  (lt_of_not_le hpos)] at h
                simp at h
      · rw [calc_of_ai_incomplete st sid s hf hc ha]; rfl

/-- C10 (confirmed): every call creates at most one `CongestionEvent`; it
creates exactly one precisely when it returns it, and then — within the same
atomic state transition — it appends that event and sets the snapshot's
congestion status to COMPLETED; on every `None`-returning path no event row is
created. -/
theorem C10_event_status_coupling (st : DBState) (sid : Int) :
    ((calculate_and_save_congestion_event st sid).1.congestion_events.length ≤
      st.congestion_events.length + 1) ∧
    (∀ ev, (calculate_and_save_congestion_event st sid).2 = some ev →
      (calculate_and_save_congestion_event st sid).1.congestion_events =
        st.congestion_events ++ [ev] ∧
      ((calculate_and_save_congestion_event st sid).1.snapshots.find?
          (fun x => x.snapshot_id = sid)).map
        (fun x => x.processing_status_congestion) =
          some ProcessingStatus.COMPLETED) ∧
    ((calculate_and_save_congestion_event st sid).2 = none →
      (calculate_and_save_congestion_event st sid).1.congestion_events =
        st.congestion_events) := by
  have hsome : ∀ ev, (calculate_and_save_congestion_event st sid).2 = some ev →
      (calculate_and_save_congestion_event st sid).1.congestion_events =
        st.congestion_events ++ [ev] ∧
      ((calculate_and_save_congestion_event st sid).1.snapshots.find?
          (fun x => x.snapshot_id = sid)).map
        (fun x => x.processing_status_congestion) =
          some ProcessingStatus.COMPLETED := by
    intro ev hev
    have hpair : calculate_and_save_congestion_event st sid =
        ((calculate_and_save_congestion_event st sid).1, some ev) := by
      rw [← hev]
    obtain ⟨s, d, a, hf, hc, ha, hroi, harea, hpos, hev', hst'⟩ :=
      calc_some_inversion st sid _ ev hpair
    constructor
    · rw [hst']
      rfl
    · rw [hst', setCongestionStatus_find?]
      have : ({ st with congestion_events := st.congestion_events ++ [ev] } :
          DBState).snapshots.find? (fun x => x.snapshot_id = sid) = some s := hf
      rw [this]
      rfl
  refine ⟨?_, hsome, calc_none_events st sid⟩
  cases hev : (calculate_and_save_congestion_event st sid).2 with
  | none => rw [calc_none_events st sid hev]; omega
  | some ev =>
      rw [(hsome ev hev).1, List.length_append]
      simp

/-- Witness for C10 at a concrete state (missing snapshot: the call is a
no-op returning `None`). -/
theorem C10_witness :
    (calculate_and_save_congestion_event ⟨[], [], [], []⟩ 1).2 = none ∧
      (calculate_and_save_congestion_event ⟨[], [], [], []⟩ 1).1.congestion_events =
        (⟨[], [], [], []⟩ : DBState).congestion_events :=
  ⟨by decide, (C10_event_status_coupling ⟨[], [], [], []⟩ 1).2.2 (by decide)⟩

/-- C8, claim as frozen, is false: `calculate_total_footprint_area` does not
sum the formula over *every* detection in the list — a person detection with
`bbox_height = 0` (or a non-person label) is skipped.  For the single
detection with `bbox_width = 10`, `bbox_height = 0` the claim's sum is
`10 * max(1, 0) = 10`, but the function returns `0`. -/
theorem C8_counterexample :
    calculate_total_footprint_area
        [⟨1, "person", none, 0, 0, 10, 0, none, none⟩] (5 / 100) = 0 ∧
      ((10 : ℚ) * max 1 ((0 : ℚ) * (5 / 100)) = 10) := by
  constructor
  · decide
  · norm_num

theorem calc_total_eq_spec (objs : List DetectedObject) (r : ℚ) :
    calculate_total_footprint_area objs r = spec_total_footprint_area objs r := by
  have h : ∀ (l : List DetectedObject) (c : ℚ),
      l.foldl
        (fun total_area obj =>
          if obj.class_label = "person" ∧ 0 < obj.bbox_width ∧
              0 < obj.bbox_height then
            total_area + (obj.bbox_width : ℚ) * max 1 ((obj.bbox_height : ℚ) * r)
          else
            total_area)
        c = c + spec_total_footprint_area l r := by
    intro l
    induction l with
    | nil => intro c; simp [spec_total_footprint_area]
    | cons o t ih =>
        intro c
        by_cases ho : o.class_label = "person" ∧ 0 < o.bbox_width ∧
            0 < o.bbox_height
        · have hstep : List.filter
              (fun o : DetectedObject => decide (o.class_label = "person" ∧
                0 < o.bbox_width ∧ 0 < o.bbox_height)) (o :: t) =
                o :: List.filter
                  (fun o : DetectedObject => decide (o.class_label = "person" ∧
                    0 < o.bbox_width ∧ 0 < o.bbox_height)) t :=
            List.filter_cons_of_pos (by simpa using ho)
          rw [List.foldl_cons, if_pos ho, ih]
          simp only [spec_total_footprint_area, hstep, List.map_cons,
            List.sum_cons]
          ring
        · have hstep : List.filter
              (fun o : DetectedObject => decide (o.class_label = "person" ∧
                0 < o.bbox_width ∧ 0 < o.bbox_height)) (o :: t) =
                List.filter
                  (fun o : DetectedObject => decide (o.class_label = "person" ∧
                    0 < o.bbox_width ∧ 0 < o.bbox_height)) t :=
            List.filter_cons_of_neg (by simpa using ho)
          rw [List.foldl_cons, if_neg ho, ih]
          simp only [spec_total_footprint_area, hstep]
  simpa [calculate_total_footprint_area] using h objs 0

theorem spec_total_replicate (n : Nat) (obj : DetectedObject) (r : ℚ)
    (h : obj.class_label = "person" ∧ 0 < obj.bbox_width ∧ 0 < obj.bbox_height) :
    spec_total_footprint_area (List.replicate n obj) r =
      (n : ℚ) * ((obj.bbox_width : ℚ) * max 1 ((obj.bbox_height : ℚ) * r)) := by
  induction n with
  | zero => simp [spec_total_footprint_area]
  | succ n ih =>
      rw [List.replicate_succ]
      have hstep : List.filter
          (fun o : DetectedObject => decide (o.class_label = "person" ∧
            0 < o.bbox_width ∧ 0 < o.bbox_height))
          (obj :: List.replicate n obj) =
            obj :: List.filter
              (fun o : DetectedObject => decide (o.class_label = "person" ∧
                0 < o.bbox_width ∧ 0 < o.bbox_height)) (List.replicate n obj) :=
        List.filter_cons_of_pos (by simpa using h)
      simp only [spec_total_footprint_area] at ih ⊢
      rw [hstep, List.map_cons, List.sum_cons, ih]
      push_cast
      ring

/-- C8 (amended): `calculate_total_footprint_area` returns the sum of
`bbox_width * max(1, bbox_height * R)` over the person-labelled detections
with positive box dimensions; on every event-creating call of the scorer the
stored raw density is that sum (at `R = 0.05`) divided by the stored ROI
area; and 100 person detections each contributing footprint area 100 against
ROI area 10,000 yield raw density 1.0, level VERY_HIGH, `alert_triggered`. -/
theorem C8_footprint_area (objs : List DetectedObject) (r : ℚ) :
    calculate_total_footprint_area objs r = spec_total_footprint_area objs r ∧
    (∀ (st st' : DBState) (sid : Int) (ev : CongestionEvent),
      calculate_and_save_congestion_event st sid = (st', some ev) →
      ev.congestion_value_raw =
        calculate_total_footprint_area
          (st.detected_objects.filter
            (fun o => o.snapshot_id = sid ∧ o.class_label = "person"))
          CONGESTION_CALCULATION_R_RATIO / ev.estimated_roi_pixel_area) ∧
    ((calculate_and_save_congestion_event
        ⟨[⟨1, 1, 0, ProcessingStatus.COMPLETED, ProcessingStatus.PENDING⟩],
          List.replicate 100 ⟨1, "person", none, 0, 0, 100, 20, none, none⟩,
          [(1, { RoiData.empty with area := some 10000 })], []⟩ 1).2.map
      (fun e => (e.congestion_value_raw, e.congestion_level, e.alert_triggered,
        e.person_count))) =
      some (1, CongestionLevelLabel.VERY_HIGH, true, 100) := by
  refine ⟨calc_total_eq_spec objs r, ?_, ?_⟩
  · intro st st' sid ev h
    obtain ⟨s, d, a, hf, hc, ha, hroi, harea, hpos, rfl, hst'⟩ :=
      calc_some_inversion st sid st' ev h
    rfl
  · rw [calc_success
      ⟨[⟨1, 1, 0, ProcessingStatus.COMPLETED, ProcessingStatus.PENDING⟩],
        List.replicate 100 ⟨1, "person", none, 0, 0, 100, 20, none, none⟩,
        [(1, { RoiData.empty with area := some 10000 })], []⟩ 1
      ⟨1, 1, 0, ProcessingStatus.COMPLETED, ProcessingStatus.PENDING⟩
      ({ RoiData.empty with area := some 10000 }) 10000
      (by decide) (by decide) rfl rfl rfl (by norm_num)]
    have hfil : (List.replicate 100
        (⟨1, "person", none, 0, 0, 100, 20, none, none⟩ : DetectedObject)).filter
          (fun o => o.snapshot_id = 1 ∧ o.class_label = "person") =
        List.replicate 100 ⟨1, "person", none, 0, 0, 100, 20, none, none⟩ :=
      List.filter_eq_self.mpr (fun a ha => by
        rw [List.eq_of_mem_replicate ha]; decide)
    have htot : calculate_total_footprint_area
        (List.replicate 100
          (⟨1, "person", none, 0, 0, 100, 20, none, none⟩ : DetectedObject))
        CONGESTION_CALCULATION_R_RATIO = 10000 := by
      rw [calc_total_eq_spec, spec_total_replicate _ _ _ (by decide)]
      norm_num [ CONGESTION_CALCULATION_R_RATIO]
    have hraw : calculate_total_footprint_area
        (List.replicate 100
          (⟨1, "person", none, 0, 0, 100, 20, none, none⟩ : DetectedObject))
        CONGESTION_CALCULATION_R_RATIO / (10000 : ℚ) = 1 := by
      rw [htot]; norm_num
    simp only [scorerEvent, Option.map_some]
    rw [hfil, hraw]
    have hlvl : determine_congestion_level 1 = CongestionLevelLabel.VERY_HIGH :=
      (determine_level_eq_VERY_HIGH_iff 1).mpr (by norm_num)
    rw [hlvl]
    simp

/-- Witness for C8's scorer-coupling conjunct at a concrete one-person state. -/
theorem C8_witness :
    (scorerEvent
        ⟨[⟨1, 1, 0, ProcessingStatus.COMPLETED, ProcessingStatus.PENDING⟩],
          [⟨1, "person", none, 0, 0, 10, 20, none, none⟩],
          [(1, { RoiData.empty with area := some 10000 })], []⟩ 1
        ⟨1, 1, 0, ProcessingStatus.COMPLETED, ProcessingStatus.PENDING⟩
        10000).congestion_value_raw =
      calculate_total_footprint_area
        (([⟨1, "person", none, 0, 0, 10, 20, none, none⟩] :
            List DetectedObject).filter
          (fun o => o.snapshot_id = 1 ∧ o.class_label = "person"))
        CONGESTION_CALCULATION_R_RATIO /
        (scorerEvent
          ⟨[⟨1, 1, 0, ProcessingStatus.COMPLETED, ProcessingStatus.PENDING⟩],
            [⟨1, "person", none, 0, 0, 10, 20, none, none⟩],
            [(1, { RoiData.empty with area := some 10000 })], []⟩ 1
          ⟨1, 1, 0, ProcessingStatus.COMPLETED, ProcessingStatus.PENDING⟩
          10000).estimated_roi_pixel_area :=
  (C8_footprint_area [] 0).2.1 _ _ 1 _
    (calc_success
      ⟨[⟨1, 1, 0, ProcessingStatus.COMPLETED, ProcessingStatus.PENDING⟩],
        [⟨1, "person", none, 0, 0, 10, 20, none, none⟩],
        [(1, { RoiData.empty with area := some 10000 })], []⟩ 1
      ⟨1, 1, 0, ProcessingStatus.COMPLETED, ProcessingStatus.PENDING⟩
      ({ RoiData.empty with area := some 10000 }) 10000
      (by decide) (by decide) rfl rfl rfl (by norm_num))

/-- C9, claim as frozen, is false: the extractor checks only the fields the
conversion reads (`center_x`, `bbox_y`, `bbox_height`), not complete centre
data.  A person detection with `center_x` present but `center_y = NULL`
(nullable per the schema) is converted to a footprint, while the claim — one
point per detection with complete centre and bounding-box data — says it must
not be. -/
theorem C9_counterexample :
    get_footprints_from_detected_objects
        ⟨[⟨1, 1, 10, ProcessingStatus.PENDING, ProcessingStatus.PENDING⟩],
          [⟨1, "person", none, 0, 2, 4, 3, some 5, none⟩], [], []⟩ 1 0 =
      [((5 : ℚ), (5 : ℚ))] ∧
    spec_footprints
        ⟨[⟨1, 1, 10, ProcessingStatus.PENDING, ProcessingStatus.PENDING⟩],
          [⟨1, "person", none, 0, 2, 4, 3, some 5, none⟩], [], []⟩ 1 0 = [] ∧
    (⟨1, "person", none, 0, 2, 4, 3, some 5, none⟩ :
      DetectedObject).center_y = none := by
  refine ⟨by decide, by decide, rfl⟩

theorem foldl_footprints (l : List (DetectedObject × Int)) (acc : List Point) :
    l.foldl
      (fun footprints r =>
        match r.1.center_x with
        | some _ => footprints ++ [footprint_of r]
        | none => footprints)
      acc = acc ++ (l.filter (fun r => r.1.center_x.isSome)).map footprint_of := by
  induction l generalizing acc with
  | nil => simp
  | cons r l ih =>
      cases hc : r.1.center_x with
      | none => simp [List.foldl_cons, hc, ih]
      | some cx => simp [List.foldl_cons, hc, ih]

/-- C9 (amended): the extractor returns one bottom-centre point
`(center_x, bbox_y + bbox_height)` per person-labelled detection captured
strictly after the bound whose `center_x` is present (the bounding-box columns
are non-nullable, `center_y` is not read and not required), ordered by the
snapshot's capture time; every queried row is strictly after the bound and
person-labelled. -/
theorem C9_footprints (db : DBState) (camera_id start_time : Int) :
    get_footprints_from_detected_objects db camera_id start_time =
      spec_footprints_amended db camera_id start_time ∧
    List.Sorted (fun a b : DetectedObject × Int => a.2 ≤ b.2)
      (orderByCapturedAt (footprintQuery db camera_id start_time)) ∧
    (∀ r ∈ footprintQuery db camera_id start_time,
      start_time < r.2 ∧ r.1.class_label = "person") := by
  refine ⟨?_, ?_, ?_⟩
  · unfold get_footprints_from_detected_objects spec_footprints_amended
    rw [foldl_footprints]
    simp
  · haveI h1 : IsTotal (DetectedObject × Int)
        (fun a b => a.2 ≤ b.2) := ⟨fun a b => le_total a.2 b.2⟩
    haveI h2 : IsTrans (DetectedObject × Int)
        (fun a b => a.2 ≤ b.2) := ⟨fun a b c hab hbc => le_trans hab hbc⟩
    exact List.sorted_insertionSort _ _
  · intro r hr
    simp only [footprintQuery, List.mem_filterMap] at hr
    obtain ⟨o, _, hf⟩ := hr
    cases hfind : db.snapshots.find? (fun s => s.snapshot_id = o.snapshot_id) with
    | none => rw [hfind] at hf; cases hf
    | some s =>
        rw [hfind] at hf
        dsimp only at hf
        by_cases hcond : s.camera_id = camera_id ∧ start_time < s.captured_at ∧
            o.class_label = "person"
        · rw [if_pos hcond] at hf
          cases hf
          exact ⟨hcond.2.1, hcond.2.2⟩
        · rw [if_neg hcond] at hf
          cases hf

/-- Witness for C9's query-bound conjunct at a concrete one-detection state. -/
theorem C9_witness :
    (0 : Int) < 10 ∧
      (⟨1, "person", none, 0, 2, 4, 3, some 5, some 6⟩ :
        DetectedObject).class_label = "person" :=
  (C9_footprints
      ⟨[⟨1, 1, 10, ProcessingStatus.PENDING, ProcessingStatus.PENDING⟩],
        [⟨1, "person", none, 0, 2, 4, 3, some 5, some 6⟩], [], []⟩ 1 0).2.2
    (⟨1, "person", none, 0, 2, 4, 3, some 5, some 6⟩, 10) (by decide)

/-! ### Dictionary and cache lemmas (for C6) -/

theorem dictGet_cons_pos (e : String × ℚ) (t : List (String × ℚ)) (k : String)
    (h : e.1 = k) : dictGet (e :: t) k = some e.2 := by
  unfold dictGet
  rw [List.find?_cons_of_pos]
  · rfl
  · exact decide_eq_true h

theorem dictGet_cons_neg (e : String × ℚ) (t : List (String × ℚ)) (k : String)
    (h : ¬ e.1 = k) : dictGet (e :: t) k = dictGet t k := by
  unfold dictGet
  rw [List.find?_cons_of_neg]
  simpa using h

theorem dictGet_append_single_self (d : List (String × ℚ)) (k : String) (v : ℚ)
    (h : dictGet d k = none) : dictGet (d ++ [(k, v)]) k = some v := by
  induction d with
  | nil => exact dictGet_cons_pos (k, v) [] k rfl
  | cons e t ih =>
      by_cases he : e.1 = k
      · rw [dictGet_cons_pos e t k he] at h
        cases h
      · rw [dictGet_cons_neg e t k he] at h
        rw [List.cons_append, dictGet_cons_neg e _ k he]
        exact ih h

theorem dictGet_append_other (d : List (String × ℚ)) (k k' : String) (v : ℚ)
    (hne : k' ≠ k) :
    dictGet (d ++ [(k, v)]) k' = dictGet d k' := by
  induction d with
  | nil => exact dictGet_cons_neg (k, v) [] k' (fun hk => hne hk.symm)
  | cons e t ih =>
      by_cases he' : e.1 = k'
      · rw [List.cons_append, dictGet_cons_pos e _ k' he',
          dictGet_cons_pos e t k' he']
      · rw [List.cons_append, dictGet_cons_neg e _ k' he',
          dictGet_cons_neg e t k' he']
        exact ih

theorem dictGet_map_replace_self (t : List (String × ℚ)) (k : String) (v : ℚ)
    (h : (dictGet t k).isSome) :
    dictGet (t.map (fun e => if e.1 = k then (k, v) else e)) k = some v := by
  induction t with
  | nil => simp [dictGet] at h
  | cons e t ih =>
      by_cases he : e.1 = k
      · rw [List.map_cons, if_pos he, dictGet_cons_pos (k, v) _ k rfl]
      · rw [dictGet_cons_neg e t k he] at h
        rw [List.map_cons, if_neg he, dictGet_cons_neg e _ k he]
        exact ih h

theorem dictGet_map_replace_other (t : List (String × ℚ)) (k k' : String)
    (v : ℚ) (hne : k' ≠ k) :
    dictGet (t.map (fun e => if e.1 = k then (k, v) else e)) k' = dictGet t k' := by
  induction t with
  | nil => rfl
  | cons e t ih =>
      by_cases he : e.1 = k
      · rw [List.map_cons, if_pos he,
          dictGet_cons_neg (k, v) _ k' (fun hk => hne hk.symm),
          dictGet_cons_neg e t k' (fun hk => hne (hk.symm.trans he))]
        exact ih
      · rw [List.map_cons, if_neg he]
        by_cases he' : e.1 = k'
        · rw [dictGet_cons_pos e _ k' he', dictGet_cons_pos e t k' he']
        · rw [dictGet_cons_neg e _ k' he', dictGet_cons_neg e t k' he']
          exact ih

theorem dictGet_set_self (d : List (String × ℚ)) (k : String) (v : ℚ) :
    dictGet (dictSet d k v) k = some v := by
  unfold dictSet
  split_ifs with h
  · refine dictGet_map_replace_self d k v ?_
    unfold dictGet
    rw [Option.isSome_map']
    exact h
  · refine dictGet_append_single_self d k v ?_
    unfold dictGet
    have h0 : (d.find? (fun e => e.1 = k)) = none :=
      Option.not_isSome_iff_eq_none.mp (by simpa using h)
    rw [h0]
    rfl

theorem dictGet_set_other (d : List (String × ℚ)) (k k' : String) (v : ℚ)
    (hne : k' ≠ k) : dictGet (dictSet d k v) k' = dictGet d k' := by
  unfold dictSet
  split_ifs with h
  · exact dictGet_map_replace_other d k k' v hne
  · exact dictGet_append_other d k k' v hne

theorem dictGet_del_self (d : List (String × ℚ)) (k : String) :
    dictGet (dictDel d k) k = none := by
  unfold dictDel
  induction d with
  | nil => rfl
  | cons e t ih =>
      by_cases he : e.1 = k
      · have hstep : List.filter (fun e : String × ℚ => e.1 ≠ k) (e :: t) =
            List.filter (fun e : String × ℚ => e.1 ≠ k) t :=
          List.filter_cons_of_neg (by simp [he])
        rw [hstep]
        exact ih
      · have hstep : List.filter (fun e : String × ℚ => e.1 ≠ k) (e :: t) =
            e :: List.filter (fun e : String × ℚ => e.1 ≠ k) t :=
          List.filter_cons_of_pos (by simp [he])
        rw [hstep, dictGet_cons_neg e _ k he]
        exact ih

theorem dictGet_del_other (d : List (String × ℚ)) (k k' : String)
    (hne : k' ≠ k) : dictGet (dictDel d k) k' = dictGet d k' := by
  unfold dictDel
  induction d with
  | nil => rfl
  | cons e t ih =>
      by_cases he : e.1 = k
      · have hstep : List.filter (fun e : String × ℚ => e.1 ≠ k) (e :: t) =
            List.filter (fun e : String × ℚ => e.1 ≠ k) t :=
          List.filter_cons_of_neg (by simp [he])
        rw [hstep, ih, dictGet_cons_neg e t k' (fun hk => hne (hk.symm.trans he))]
      · have hstep : List.filter (fun e : String × ℚ => e.1 ≠ k) (e :: t) =
            e :: List.filter (fun e : String × ℚ => e.1 ≠ k) t :=
          List.filter_cons_of_pos (by simp [he])
        rw [hstep]
        by_cases he' : e.1 = k'
        · rw [dictGet_cons_pos e _ k' he', dictGet_cons_pos e t k' he']
        · rw [dictGet_cons_neg e _ k' he', dictGet_cons_neg e t k' he']
          exact ih

theorem length_dictSet_le (d : List (String × ℚ)) (k : String) (v : ℚ) :
    (dictSet d k v).length ≤ d.length + 1 := by
  unfold dictSet
  split_ifs with h
  · simp
  · simp

theorem length_dictDel_lt (d : List (String × ℚ)) (k : String)
    (h : (dictGet d k).isSome) : (dictDel d k).length < d.length := by
  unfold dictDel
  rw [List.length_filter_lt_length_iff_exists]
  unfold dictGet at h
  rw [Option.isSome_map'] at h
  rw [List.find?_isSome] at h
  obtain ⟨e, he, hpe⟩ := h
  exact ⟨e, he, by simpa using of_decide_eq_true hpe⟩

theorem get_alpha_fst (c : AlphaCache) (k : String) :
    (c.get_alpha k).1 = dictGet c._cache k := by
  unfold AlphaCache.get_alpha
  cases h : dictGet c._cache k <;> simp [h]

theorem get_alpha_snd_cache (c : AlphaCache) (k : String) :
    (c.get_alpha k).2._cache = c._cache ∧
      (c.get_alpha k).2._max_size = c._max_size := by
  unfold AlphaCache.get_alpha
  cases h : dictGet c._cache k <;> simp [h]

theorem set_alpha_length (c : AlphaCache) (k : String) (v : ℚ) (c' : AlphaCache)
    (h : c.set_alpha k v = some c') (hlen : c._cache.length ≤ c._max_size) :
    c'._cache.length ≤ c'._max_size ∧ c'._max_size = c._max_size := by
  unfold AlphaCache.set_alpha at h
  split_ifs at h with hge
  · cases horder : c._access_order with
    | nil => rw [horder] at h; cases h
    | cons oldest rest =>
        rw [horder] at h
        dsimp only at h
        by_cases hs : (dictGet c._cache oldest).isSome
        · rw [if_pos hs] at h
          cases h
          refine ⟨?_, rfl⟩
          have h1 := length_dictDel_lt c._cache oldest hs
          have h2 := length_dictSet_le (dictDel c._cache oldest) k v
          simp only []
          omega
        · rw [if_neg hs] at h
          cases h
  · cases h
    refine ⟨?_, rfl⟩
    have h2 := length_dictSet_le c._cache k v
    simp only []
    omega

theorem runCacheOps_length (ops : List CacheOp) :
    ∀ c0 c : AlphaCache, c0._cache.length ≤ c0._max_size →
      runCacheOps c0 ops = some c →
      c._cache.length ≤ c._max_size ∧ c._max_size = c0._max_size := by
  induction ops with
  | nil =>
      intro c0 c h hr
      cases hr
      exact ⟨h, rfl⟩
  | cons op ops ih =>
      intro c0 c h hr
      cases op with
      | get k =>
          have hc := get_alpha_snd_cache c0 k
          have := ih (c0.get_alpha k).2 c (by rw [hc.1, hc.2]; exact h) hr
          exact ⟨this.1, this.2.trans hc.2⟩
      | set k v =>
          cases hset : c0.set_alpha k v with
          | none => rw [runCacheOps, hset] at hr; cases hr
          | some c1 =>
              rw [runCacheOps, hset] at hr
              have hl := set_alpha_length c0 k v c1 hset h
              have := ih c1 c (hl.2 ▸ hl.1) hr
              exact ⟨this.1, this.2.trans hl.2⟩

set_option maxRecDepth 100000 in
/-- C6, claim as frozen, is false: `set_alpha` of an *already cached*
fingerprint at capacity still pops the left end of the access deque and
evicts that entry — here the cache is filled with 100 distinct fingerprints
`keyOf 0 .. keyOf 99`, then `set_alpha (keyOf 1)` (already present, so by the
claim no eviction may happen and `keyOf 0` must stay) evicts `keyOf 0`: the
subsequent `get_alpha (keyOf 0)` misses, and the cache has shrunk to 99
entries.  The eviction victim is thus not "the least-recently-used entry on
insertion of a new fingerprint". -/
theorem C6_counterexample :
    (runCacheOps AlphaCache.mk0 c6ops).map
        (fun c => ((c.get_alpha (keyOf 0)).1, c._cache.length)) =
      some (none, 99) ∧ keyOf 0 ≠ keyOf 1 := by
  constructor
  · decide
  · decide

/-- C6 (amended): the cache never exceeds 100 entries over any call sequence;
`get_alpha` returns the stored parameter of a present fingerprint and `None`
otherwise; and as long as `set_alpha` is only called for fingerprints that are
not currently cached, the access deque is exactly the recency order (every
`get`/fresh `set` of a fingerprint moves it to the back, invariant
`AlphaCache.Inv`), and a fresh `set` at capacity evicts exactly the front of
that order — the least-recently-accessed fingerprint — keeping all others. -/
theorem C6_alpha_cache_lru :
    (∀ (ops : List CacheOp) (c : AlphaCache),
        runCacheOps AlphaCache.mk0 ops = some c →
        c._cache.length ≤ ALPHA_CACHE_SIZE) ∧
    (∀ (c : AlphaCache) (k : String),
        (c.get_alpha k).1 = dictGet c._cache k) ∧
    (∀ (c : AlphaCache) (k : String) (v : ℚ),
        c.Inv → dictGet c._cache k = none → c._cache.length < c._max_size →
        c.set_alpha k v =
          some ⟨dictSet c._cache k v, c._access_order ++ [k], c._max_size⟩ ∧
        AlphaCache.Inv
          ⟨dictSet c._cache k v, c._access_order ++ [k], c._max_size⟩) ∧
    (∀ (c : AlphaCache) (k : String) (v : ℚ),
        c.Inv → dictGet c._cache k = some v →
        (c.get_alpha k).2 =
          ⟨c._cache, (c._access_order.erase k) ++ [k], c._max_size⟩ ∧
        AlphaCache.Inv
          ⟨c._cache, (c._access_order.erase k) ++ [k], c._max_size⟩) ∧
    (∀ (c : AlphaCache) (k oldest : String) (v : ℚ) (rest : List String),
        c.Inv → dictGet c._cache k = none → c._max_size ≤ c._cache.length →
        c._access_order = oldest :: rest →
        c.set_alpha k v =
          some ⟨dictSet (dictDel c._cache oldest) k v, rest ++ [k],
            c._max_size⟩ ∧
        dictGet (dictSet (dictDel c._cache oldest) k v) oldest = none ∧
        dictGet (dictSet (dictDel c._cache oldest) k v) k = some v ∧
        (∀ k', k' ≠ oldest → k' ≠ k →
          dictGet (dictSet (dictDel c._cache oldest) k v) k' =
            dictGet c._cache k') ∧
        AlphaCache.Inv
          ⟨dictSet (dictDel c._cache oldest) k v, rest ++ [k], c._max_size⟩) := by
  refine ⟨?_, get_alpha_fst, ?_, ?_, ?_⟩
  · intro ops c h
    have hb := runCacheOps_length ops AlphaCache.mk0 c (by simp [AlphaCache.mk0]) h
    rw [hb.2] at hb
    exact hb.1
  · intro c k v hInv hnone hlt
    obtain ⟨hnd, hmem⟩ := hInv
    have hkno : k ∉ c._access_order := by
      intro hk
      have := (hmem k).mpr hk
      rw [hnone] at this
      cases this
    constructor
    · unfold AlphaCache.set_alpha
      rw [if_neg (not_le.mpr hlt)]
    · constructor
      · rw [List.nodup_append]
        refine ⟨hnd, List.nodup_singleton k, ?_⟩
        intro a ha hb
        rw [List.mem_singleton] at hb
        subst hb
        exact hkno ha
      · intro k'
        rw [List.mem_append, List.mem_singleton]
        by_cases hk' : k' = k
        · subst hk'
          simp [dictGet_set_self]
        · rw [dictGet_set_other c._cache k k' v hk']
          simp [hk', hmem k']
  · intro c k v hInv hsome
    obtain ⟨hnd, hmem⟩ := hInv
    have hkmem : k ∈ c._access_order := (hmem k).mp (by rw [hsome]; rfl)
    refine ⟨?_, ?_, ?_⟩
    · unfold AlphaCache.get_alpha
      rw [hsome]
    · rw [List.nodup_append]
      refine ⟨List.Nodup.erase k hnd, List.nodup_singleton k, ?_⟩
      intro a ha hb
      rw [List.mem_singleton] at hb
      subst hb
      exact ((hnd.mem_erase_iff).mp ha).1 rfl
    · intro k'
      rw [List.mem_append, List.mem_singleton, hnd.mem_erase_iff]
      by_cases hk' : k' = k
      · subst hk'
        simp [hsome]
      · simp [hk', hmem k']
  · intro c k oldest v rest hInv hnone hge horder
    obtain ⟨hnd, hmem⟩ := hInv
    have holdmem : oldest ∈ c._access_order := by
      rw [horder]; exact List.mem_cons_self _ _
    have holds : (dictGet c._cache oldest).isSome := (hmem oldest).mpr holdmem
    have hok : ¬ oldest = k := by
      intro hx
      rw [hx, hnone] at holds
      cases holds
    have hkno : k ∉ c._access_order := by
      intro hk
      have := (hmem k).mpr hk
      rw [hnone] at this
      cases this
    have hndrest : rest.Nodup := by
      rw [horder] at hnd
      exact (List.nodup_cons.mp hnd).2
    have holdrest : oldest ∉ rest := by
      rw [horder] at hnd
      exact (List.nodup_cons.mp hnd).1
    have hkrest : k ∉ rest := fun hk => hkno (by
      rw [horder]; exact List.mem_cons_of_mem _ hk)
    refine ⟨?_, ?_, dictGet_set_self _ _ _, ?_, ?_, ?_⟩
    · unfold AlphaCache.set_alpha
      rw [if_pos hge, horder]
      dsimp only
      rw [if_pos holds]
    · rw [dictGet_set_other _ k oldest v hok]
      exact dictGet_del_self _ _
    · intro k' h1 h2
      rw [dictGet_set_other _ k k' v h2, dictGet_del_other _ oldest k' h1]
    · rw [List.nodup_append]
      refine ⟨hndrest, List.nodup_singleton k, ?_⟩
      intro a ha hb
      rw [List.mem_singleton] at hb
      subst hb
      exact hkrest ha
    · intro k'
      rw [List.mem_append, List.mem_singleton]
      by_cases hk' : k' = k
      · subst hk'
        simp [dictGet_set_self]
      · rw [dictGet_set_other _ k k' v hk']
        by_cases ho' : k' = oldest
        · subst ho'
          rw [dictGet_del_self]
          simp [holdrest, hk']
        · rw [dictGet_del_other _ oldest k' ho']
          rw [hmem k', horder]
          simp [List.mem_cons, ho', hk']

/-- Witness for C6's amended capacity-eviction conjunct at a concrete
two-entry cache of capacity 2. -/
theorem C6_witness :
    AlphaCache.set_alpha ⟨[("a", 1), ("b", 2)], ["a", "b"], 2⟩ "c" 3 =
      some ⟨dictSet (dictDel [("a", 1), ("b", 2)] "a") "c" 3,
        ["b"] ++ ["c"], 2⟩ :=
  (C6_alpha_cache_lru.2.2.2.2 ⟨[("a", 1), ("b", 2)], ["a", "b"], 2⟩ "c" "a" 3
    ["b"]
    ⟨by decide, fun k => by
      by_cases ha : k = "a"
      · subst ha; decide
      · by_cases hb : k = "b"
        · subst hb; decide
        · rw [dictGet_cons_neg _ _ _ (fun h => ha h.symm),
            dictGet_cons_neg _ _ _ (fun h => hb h.symm)]
          simp [dictGet, ha, hb]⟩
    (by decide) (by decide) rfl).1

/-- C7 (confirmed): when the alpha-shape construction fails (or yields an
empty/invalid geometry), the sliding-revision ROI service persists the full
merged, deduplicated, capped point set together with the new last-processed
timestamp (reporting no success), and that persisted point set is exactly the
one the success branch would persist for any valid shape outcome — no
accumulated point is discarded by the failure. -/
theorem C7_failure_preserves_points (current_roi_def : Option RoiDef)
    (new_footprints : List Point) (t : Int) (alpha_value : ℚ)
    (hmin : MIN_POINTS_FOR_ROI ≤
      ((efficient_point_management
          (match current_roi_def with
           | some d => (d.definition_data.roi_defining_points).getD []
           | none => []) new_footprints).dedup).length) :
    persistedPoints
        (congestion_analysis_tasks.update_roi_for_camera_service current_roi_def
          new_footprints t congestion_analysis_tasks.ShapeOutcome.invalid
          alpha_value).1 =
      some ((efficient_point_management
          (match current_roi_def with
           | some d => (d.definition_data.roi_defining_points).getD []
           | none => []) new_footprints).dedup) ∧
    persistedTimestamp
        (congestion_analysis_tasks.update_roi_for_camera_service current_roi_def
          new_footprints t congestion_analysis_tasks.ShapeOutcome.invalid
          alpha_value).1 = some t ∧
    (congestion_analysis_tasks.update_roi_for_camera_service current_roi_def
        new_footprints t congestion_analysis_tasks.ShapeOutcome.invalid
        alpha_value).2 = false ∧
    (∀ (exterior_coords : List Point) (area : ℚ),
      persistedPoints
          (congestion_analysis_tasks.update_roi_for_camera_service
            current_roi_def new_footprints t
            (congestion_analysis_tasks.ShapeOutcome.valid exterior_coords area)
            alpha_value).1 =
        some ((efficient_point_management
            (match current_roi_def with
             | some d => (d.definition_data.roi_defining_points).getD []
             | none => []) new_footprints).dedup) ∧
      persistedTimestamp
          (congestion_analysis_tasks.update_roi_for_camera_service
            current_roi_def new_footprints t
            (congestion_analysis_tasks.ShapeOutcome.valid exterior_coords area)
            alpha_value).1 = some t) := by
  have hnot := not_lt.mpr hmin
  refine ⟨?_, ?_, ?_, ?_⟩
  · simp only [congestion_analysis_tasks.update_roi_for_camera_service]
    rw [if_neg hnot]
    cases current_roi_def <;>
      simp [congestion_analysis_tasks.save_points_only, persistedPoints]
  · simp only [congestion_analysis_tasks.update_roi_for_camera_service]
    rw [if_neg hnot]
    cases current_roi_def <;>
      simp [congestion_analysis_tasks.save_points_only, persistedTimestamp]
  · simp only [congestion_analysis_tasks.update_roi_for_camera_service]
    rw [if_neg hnot]
  · intro exterior_coords area
    constructor
    · simp only [congestion_analysis_tasks.update_roi_for_camera_service]
      rw [if_neg hnot]
      cases current_roi_def <;> simp [persistedPoints]
    · simp only [congestion_analysis_tasks.update_roi_for_camera_service]
      rw [if_neg hnot]
      cases current_roi_def <;> simp [persistedTimestamp]

/-- Witness for C7 at a concrete state: no prior definition, three fresh
points, failed shape construction. -/
theorem C7_witness :
    persistedPoints
        (congestion_analysis_tasks.update_roi_for_camera_service none
          [((0 : ℚ), (0 : ℚ)), (1, 0), (0, 1)] 5
          congestion_analysis_tasks.ShapeOutcome.invalid 0).1 =
      some ((efficient_point_management
          (match (none : Option RoiDef) with
           | some d => (d.definition_data.roi_defining_points).getD []
           | none => []) [((0 : ℚ), (0 : ℚ)), (1, 0), (0, 1)]).dedup) :=
  (C7_failure_preserves_points none [((0 : ℚ), (0 : ℚ)), (1, 0), (0, 1)] 5 0
    (by decide)).1

/-- C5, claim as frozen, is false against the alpha-sliding revision of
`update_roi_for_camera_service` (one of its two cited implementations): a run
whose new footprint `(100, 100)` lies strictly outside the stored boundary —
the triangle `(0,0),(10,0),(0,10)` with consistent stored area 50 — always
recomputes the alpha shape from the capped point window and persists whatever
area it yields; with the (perfectly possible) tighter shape of area 20 the
persisted ROI area shrinks from 50 to 20, and the run reports success rather
than the claimed non-decrease. -/
theorem C5_counterexample :
    polygonContains [((0 : ℚ), (0 : ℚ)), (10, 0), (0, 10)] (100, 100) = false ∧
    polygon_area (closeRing [((0 : ℚ), (0 : ℚ)), (10, 0), (0, 10)]) = 50 ∧
    ((congestion_analysis_tasks.update_roi_for_camera_service
        (some ⟨"DYNAMIC_ALPHA_SHAPE_SLIDING",
          { RoiData.empty with
            area := some 50,
            vertices := some [((0 : ℚ), (0 : ℚ)), (10, 0), (0, 10)],
            roi_defining_points := some [((0 : ℚ), (0 : ℚ)), (10, 0), (0, 10)],
            last_processed_timestamp := some 0 }, true, 1⟩)
        [(100, 100)] 5
        (congestion_analysis_tasks.ShapeOutcome.valid
          [((0 : ℚ), (0 : ℚ)), (5, 0), (0, 5), (0, 0)] 20) 1).1.bind
      (fun r => r.definition_data.area)) = some 20 ∧
    (congestion_analysis_tasks.update_roi_for_camera_service
        (some ⟨"DYNAMIC_ALPHA_SHAPE_SLIDING",
          { RoiData.empty with
            area := some 50,
            vertices := some [((0 : ℚ), (0 : ℚ)), (10, 0), (0, 10)],
            roi_defining_points := some [((0 : ℚ), (0 : ℚ)), (10, 0), (0, 10)],
            last_processed_timestamp := some 0 }, true, 1⟩)
        [(100, 100)] 5
        (congestion_analysis_tasks.ShapeOutcome.valid
          [((0 : ℚ), (0 : ℚ)), (5, 0), (0, 5), (0, 0)] 20) 1).2 = true ∧
    (20 : ℚ) < 50 := by
  refine ⟨?_, ?_, by decide, by decide, by norm_num⟩
  · norm_num [polygonContains, List.rotate]
  · norm_num [polygon_area, shoelace2, closeRing]

/-- C5 (amended): the no-change guarantee belongs to the convex-hull revision
(`analytics/tasks.py`): with an existing valid boundary (a `coordinates` list
of at least 3 vertices) and every new footprint strictly inside it, the run
persists nothing and returns `False` ("no change"), so boundary and area are
unchanged.  The alpha-sliding revision instead persists the freshly computed
shape on every run with enough points: the stored area after such a run is
exactly the new shape's area (which claim C5's counterexample shows may be
smaller than the previous one), and the run reports success. -/
theorem C5_roi_update_change_policy :
    (∀ (d : RoiDef) (coords : List Point) (new_footprints : List Point),
      d.definition_data.coordinates = some coords →
      3 ≤ coords.length →
      (∀ p ∈ new_footprints, polygonContains coords p = true) →
      tasks.update_roi_for_camera_service (some d) new_footprints =
        (some d, false)) ∧
    (∀ (current_roi_def : Option RoiDef) (new_footprints : List Point)
        (t : Int) (exterior_coords : List Point) (area alpha_value : ℚ),
      MIN_POINTS_FOR_ROI ≤
        ((efficient_point_management
            (match current_roi_def with
             | some d => (d.definition_data.roi_defining_points).getD []
             | none => []) new_footprints).dedup).length →
      ((congestion_analysis_tasks.update_roi_for_camera_service current_roi_def
          new_footprints t
          (congestion_analysis_tasks.ShapeOutcome.valid exterior_coords area)
          alpha_value).1.bind (fun r => r.definition_data.area)) = some area ∧
      (congestion_analysis_tasks.update_roi_for_camera_service current_roi_def
          new_footprints t
          (congestion_analysis_tasks.ShapeOutcome.valid exterior_coords area)
          alpha_value).2 = true) := by
  constructor
  · intro d coords new_footprints hcoords hlen hin
    simp only [tasks.update_roi_for_camera_service]
    rw [hcoords]
    dsimp only
    rw [if_pos hlen]
    have hfil : new_footprints.filter (fun p => ¬ polygonContains coords p) = [] :=
      List.filter_eq_nil_iff.mpr (fun p hp => by simp [hin p hp])
    dsimp only
    rw [hfil]
    simp
  · intro current_roi_def new_footprints t exterior_coords area alpha_value hmin
    have hnot := not_lt.mpr hmin
    constructor
    · simp only [congestion_analysis_tasks.update_roi_for_camera_service]
      rw [if_neg hnot]
      cases current_roi_def <;> simp
    · simp only [congestion_analysis_tasks.update_roi_for_camera_service]
      rw [if_neg hnot]

/-- Witness for C5's amended no-change half at a concrete state: square-free
triangle boundary, one strictly interior new footprint, nothing persisted. -/
theorem C5_witness :
    tasks.update_roi_for_camera_service
        (some ⟨"DYNAMIC_CONVEX_HULL",
          { RoiData.empty with
            coordinates := some [((0 : ℚ), (0 : ℚ)), (10, 0), (0, 10)],
            area := some 50 }, true, 1⟩) [((1 : ℚ), (1 : ℚ))] =
      (some ⟨"DYNAMIC_CONVEX_HULL",
        { RoiData.empty with
          coordinates := some [((0 : ℚ), (0 : ℚ)), (10, 0), (0, 10)],
          area := some 50 }, true, 1⟩, false) :=
  C5_roi_update_change_policy.1 _ [((0 : ℚ), (0 : ℚ)), (10, 0), (0, 10)]
    [((1 : ℚ), (1 : ℚ))] rfl (by norm_num)
    (fun p hp => by
      rw [List.mem_singleton] at hp
      subst hp
      norm_num [polygonContains, List.rotate])

end SmartCCTV
